import Mathlib

/-!
Verification of the mattermost-plugin-playbooks webapp excerpt: the playbook
detail page (`Playbook` component) and the runs-list filter bar (`Filters`
component).  The definitions below are a shallow embedding of the view-state
logic of those two files; theorems settle the behavioural claims about them.
-/

set_option linter.unusedVariables false

namespace PlaybooksSpec

/-! ## Data model -/

/-- `PlaybookRunStatus` from `src/types/playbook_run`: only the two values
used by the filter bar appear in the source under study. -/
inductive PlaybookRunStatus
  | InProgress
  | Finished
deriving DecidableEq, Repr

/-- `PlaybookWithChecklist` as used by the detail page: id, title, public
flag, member list, delete timestamp and team id are the fields the component
reads.  `delete_at` is the archival timestamp (`0` means not archived). -/
structure PlaybookWithChecklist where
  id : String
  title : String
  public : Bool
  delete_at : Int
  team_id : String
  members : List String
deriving DecidableEq, Repr

/-- `UserProfile`: only the `id` field is consumed by `setOwnerId`. -/
structure UserProfile where
  id : String
deriving DecidableEq, Repr

/-- `FetchPlaybookRunsParams` from `src/types/playbook_run`: the
query-parameter bag the filter bar mutates.  The fields the filter bar
touches are modelled exactly; `per_page`, `sort` and `direction` stand for
the remaining pagination/sort fields, which every setter carries over
unchanged through the object spread. -/
structure FetchPlaybookRunsParams where
  page : Int
  per_page : Int
  sort : String
  direction : String
  team_id : Option String
  statuses : Option (List PlaybookRunStatus)
  owner_user_id : Option String
  participant_or_follower_id : Option String
  search_term : Option String
  playbook_id : Option String
deriving DecidableEq, Repr

/-- Truthiness of an optional boolean, as JavaScript evaluates an optional
`checked?: boolean` argument in a condition (`undefined` is falsy). -/
def obTruthy : Option Bool → Bool
  | some b => b
  | none => false

/-! ## Filter bar setters (`filters.tsx`) -/

/-- `setMyRunsOnly` from `filters.tsx`:
`{...oldParams, participant_or_follower_id: checked ? 'me' : '', page: 0}`. -/
def setMyRunsOnly (checked : Option Bool) (oldParams : FetchPlaybookRunsParams) :
    FetchPlaybookRunsParams :=
  { oldParams with
    participant_or_follower_id := some (if obTruthy checked then "me" else "")
    page := 0 }

/-- `setOwnerId` from `filters.tsx`:
`{...oldParams, owner_user_id: user?.id, page: 0}` (the `userType` argument
is ignored). -/
def setOwnerId (userType : Option String) (user : Option UserProfile)
    (oldParams : FetchPlaybookRunsParams) : FetchPlaybookRunsParams :=
  { oldParams with
    owner_user_id := user.map (fun u => u.id)
    page := 0 }

/-- `setTeamId` from `filters.tsx`:
`{...oldParams, team_id: teamId, page: 0}`. -/
def setTeamId (teamId : Option String) (oldParams : FetchPlaybookRunsParams) :
    FetchPlaybookRunsParams :=
  { oldParams with team_id := teamId, page := 0 }

/-- `setPlaybookId` from `filters.tsx`:
`{...oldParams, playbook_id: playbookId, page: 0}`. -/
def setPlaybookId (playbookId : Option String) (oldParams : FetchPlaybookRunsParams) :
    FetchPlaybookRunsParams :=
  { oldParams with playbook_id := playbookId, page := 0 }

/-- `setFinishedRuns` from `filters.tsx`: choose the status list from the
checkbox state, then `{...oldParams, statuses, page: 0}`. -/
def setFinishedRuns (checked : Option Bool) (oldParams : FetchPlaybookRunsParams) :
    FetchPlaybookRunsParams :=
  { oldParams with
    statuses := some (if obTruthy checked then
        [PlaybookRunStatus.InProgress, PlaybookRunStatus.Finished]
      else
        [PlaybookRunStatus.InProgress])
    page := 0 }

/-- `setSearchTerm` from `filters.tsx`:
`{...oldParams, search_term: term, page: 0}`. -/
def setSearchTerm (term : String) (oldParams : FetchPlaybookRunsParams) :
    FetchPlaybookRunsParams :=
  { oldParams with search_term := some term, page := 0 }

/-- The `checked` prop of the my-runs-only checkbox:
`fetchParams.participant_or_follower_id === 'me'`. -/
def myRunsOnlyChecked (fetchParams : FetchPlaybookRunsParams) : Bool :=
  fetchParams.participant_or_follower_id = some "me"

/-- The `checked` prop of the finished-runs checkbox:
`(fetchParams.statuses?.length ?? 0) > 1`. -/
def finishedRunsChecked (fetchParams : FetchPlaybookRunsParams) : Bool :=
  (match fetchParams.statuses with
    | some l => l.length
    | none => 0) > 1

/-- The local toggle state of the `Filters` component: the three
controlled-open booleans held in `useState`. -/
structure FiltersLocalState where
  profileSelectorToggle : Bool
  teamSelectorToggle : Bool
  playbookSelectorToggle : Bool
deriving DecidableEq, Repr

/-- `resetOwner` from `filters.tsx`: `setOwnerId()` then flip
`profileSelectorToggle`.  Returns the updated fetch parameters and local
state. -/
def resetOwner (fetchParams : FetchPlaybookRunsParams) (l : FiltersLocalState) :
    FetchPlaybookRunsParams × FiltersLocalState :=
  (setOwnerId none none fetchParams,
    { l with profileSelectorToggle := !l.profileSelectorToggle })

/-- `resetTeam` from `filters.tsx`: `setTeamId()` then flip
`teamSelectorToggle`. -/
def resetTeam (fetchParams : FetchPlaybookRunsParams) (l : FiltersLocalState) :
    FetchPlaybookRunsParams × FiltersLocalState :=
  (setTeamId none fetchParams,
    { l with teamSelectorToggle := !l.teamSelectorToggle })

/-- `resetPlaybook` from `filters.tsx`: `setPlaybookId()` then flip
`playbookSelectorToggle`. -/
def resetPlaybook (fetchParams : FetchPlaybookRunsParams) (l : FiltersLocalState) :
    FetchPlaybookRunsParams × FiltersLocalState :=
  (setPlaybookId none fetchParams,
    { l with playbookSelectorToggle := !l.playbookSelectorToggle })

/-! ## Playbook detail page (`Playbook` component) -/

/-- `FetchingStateType` from the detail page. -/
inductive FetchingState
  | loading
  | fetched
  | notFound
deriving DecidableEq, Repr

/-- The `useState` view state of the `Playbook` component that the fetch
effect and the render function read and write. -/
structure PlaybookPageState where
  playbook : Option PlaybookWithChecklist
  fetchingState : FetchingState
  isFollowed : Bool
deriving DecidableEq, Repr

/-- The state on mount: `useState<PlaybookWithChecklist>()` starts
`undefined`, `fetchingState` starts `loading`, `isFollowed` starts
`false`. -/
def initialPageState : PlaybookPageState :=
  { playbook := none, fetchingState := FetchingState.loading, isFollowed := false }

/-- The joint result of the two awaited client calls inside `fetchData`:
either some call throws (`Except.error`), or both resolve, yielding the
fetched playbook (possibly absent, matching the `!playbook` render guard and
the `fetchedPlaybook!` assertion) and the follower flag. -/
abbrev FetchOutcome := Except Unit (Option PlaybookWithChecklist × Bool)

/-- `fetchData` from the detail page's mount effect: when the route carries a
playbook id, try the two client fetches; on success store the playbook, move
to `fetched` and store the follower flag; on a thrown error move to
`notFound` and clear the follow flag.  When the route id is empty nothing
runs and the state is unchanged. -/
def fetchData (playbookId : String) (outcome : FetchOutcome)
    (s : PlaybookPageState) : PlaybookPageState :=
  if playbookId = "" then s
  else
    match outcome with
    | Except.ok (fetchedPlaybook, isPlaybookFollower) =>
        { playbook := fetchedPlaybook
          fetchingState := FetchingState.fetched
          isFollowed := isPlaybookFollower }
    | Except.error _ =>
        { s with fetchingState := FetchingState.notFound, isFollowed := false }

/-- The render branch of the detail page: while `loading` it renders `null`
(no redirect); afterwards it renders the not-found redirect exactly when
`fetchingState === notFound || !playbook`. -/
def rendersNotFoundRedirect (s : PlaybookPageState) : Bool :=
  if s.fetchingState = FetchingState.loading then false
  else if s.fetchingState = FetchingState.notFound ∨ s.playbook = none then true
  else false

/-- Whether a `fetchData` outcome is an error in the sense of the spec:
a thrown client call, or a resolved fetch carrying no playbook. -/
def outcomeIndicatesMissing (outcome : FetchOutcome) : Bool :=
  match outcome with
  | Except.error _ => true
  | Except.ok (none, _) => true
  | Except.ok (some _, _) => false

/-- `archived` from the detail page: `playbook?.delete_at !== 0`. -/
def archived (playbook : PlaybookWithChecklist) : Bool :=
  playbook.delete_at ≠ 0

/-- `enableRunPlaybook` from the detail page:
`!archived && hasPermissionToRunPlaybook`. -/
def enableRunPlaybook (playbook : PlaybookWithChecklist)
    (hasPermissionToRunPlaybook : Bool) : Bool :=
  !archived playbook && hasPermissionToRunPlaybook

/-- The `disabled` prop of the run button: `!enableRunPlaybook`. -/
def runButtonDisabled (playbook : PlaybookWithChecklist)
    (hasPermissionToRunPlaybook : Bool) : Bool :=
  !enableRunPlaybook playbook hasPermissionToRunPlaybook

/-- The `disabled` prop of the auto-follow checkbox: `archived`. -/
def autoFollowCheckboxDisabled (playbook : PlaybookWithChecklist) : Bool :=
  archived playbook

/-- Whether the "Archive playbook" dropdown entry is rendered:
`!archived && <DropdownMenuItem .../>`. -/
def archiveMenuItemRendered (playbook : PlaybookWithChecklist) : Bool :=
  !archived playbook

/-! ## Debounced search callback

The search box wires `onSearch={debounce(setSearchTerm,
searchDebounceDelayMilliseconds)}`.  The `debounce` utility is an external
dependency whose source is not part of this repository excerpt, so its
temporal behaviour is modelled from the spec below. -/

/-- `searchDebounceDelayMilliseconds` from `filters.tsx`. -/
def searchDebounceDelayMilliseconds : Nat := 300

/-- Modelled from the spec: the external `debounce` utility wrapping the
search callback coalesces rapid input events "into at most one outbound call
per quiet period".  Given the (nondecreasing) timestamps in milliseconds of
a sequence of input events, the wrapped callback fires once per burst: after
an event, it fires only when no further event arrives within `delay`
milliseconds.  This counts the resulting invocations. -/
def debounceInvocationCount (delay : Nat) : List Nat → Nat
  | [] => 0
  | [_] => 1
  | t1 :: t2 :: rest =>
      (if delay ≤ t2 - t1 then 1 else 0) + debounceInvocationCount delay (t2 :: rest)

/-- The number of invocations of `setSearchTerm` produced by the debounced
`onSearch` callback for a given sequence of input-event timestamps. -/
def onSearchInvocationCount (eventTimes : List Nat) : Nat :=
  debounceInvocationCount searchDebounceDelayMilliseconds eventTimes

/-- A sequence of input events is rapid when each event follows the previous
one in strictly less than `delay` milliseconds. -/
def rapidSequence (delay : Nat) : List Nat → Bool
  | [] => true
  | [_] => true
  | t1 :: t2 :: rest => decide (t2 - t1 < delay) && rapidSequence delay (t2 :: rest)

/-! ## Theorems -/

/-- Claim C2: on the playbook detail page, for every fetched playbook, the
run button is enabled (its `disabled` prop is false) if and only if the
playbook is not archived (`delete_at = 0`) and the current user holds the
run-create permission for it. -/
theorem run_button_enabled_iff (playbook : PlaybookWithChecklist)
    (hasPermissionToRunPlaybook : Bool) :
    runButtonDisabled playbook hasPermissionToRunPlaybook = false ↔
      (playbook.delete_at = 0 ∧ hasPermissionToRunPlaybook = true) := by
  cases hasPermissionToRunPlaybook <;>
    simp [runButtonDisabled, enableRunPlaybook, archived]

/-- Claim C3: toggling the include-finished checkbox sets `statuses` to
exactly `[InProgress, Finished]` when checked and to exactly `[InProgress]`
when unchecked, and the checkbox renders as checked exactly when the
statuses list is present with more than one element. -/
theorem finished_runs_toggle_spec (p q : FetchPlaybookRunsParams) :
    (setFinishedRuns (some true) p).statuses =
        some [PlaybookRunStatus.InProgress, PlaybookRunStatus.Finished] ∧
      (setFinishedRuns (some false) p).statuses =
        some [PlaybookRunStatus.InProgress] ∧
      (finishedRunsChecked q = true ↔ ∃ l, q.statuses = some l ∧ 1 < l.length) := by
  refine ⟨rfl, rfl, ?_⟩
  cases h : q.statuses with
  | none => simp [finishedRunsChecked, h]
  | some l => simp [finishedRunsChecked, h]

/-- Claim C4: every filter mutation in the filters bar (search term,
my-runs-only, owner, team, playbook, include-finished) sets the `page` field
of the fetch parameters to 0. -/
theorem filter_mutations_reset_page (p : FetchPlaybookRunsParams)
    (checked : Option Bool) (userType : Option String) (user : Option UserProfile)
    (teamId playbookId : Option String) (term : String) :
    (setSearchTerm term p).page = 0 ∧
      (setMyRunsOnly checked p).page = 0 ∧
      (setOwnerId userType user p).page = 0 ∧
      (setTeamId teamId p).page = 0 ∧
      (setPlaybookId playbookId p).page = 0 ∧
      (setFinishedRuns checked p).page = 0 :=
  ⟨rfl, rfl, rfl, rfl, rfl, rfl⟩

/-- Claim C5: toggling the my-runs-only checkbox sets
`participant_or_follower_id` to `"me"` when checked and to the empty string
when unchecked, and the checkbox renders as checked exactly when that field
equals `"me"`. -/
theorem my_runs_only_toggle_spec (p q : FetchPlaybookRunsParams) :
    (setMyRunsOnly (some true) p).participant_or_follower_id = some "me" ∧
      (setMyRunsOnly (some false) p).participant_or_follower_id = some "" ∧
      (myRunsOnlyChecked q = true ↔ q.participant_or_follower_id = some "me") := by
  refine ⟨rfl, rfl, ?_⟩
  simp [myRunsOnlyChecked]

/-- Claim C6: for each of the three selector widgets (owner, team,
playbook), the reset control sets the corresponding id field of the fetch
parameters to `undefined`, resets `page` to 0, and inverts exactly that
selector's controlled-open toggle boolean. -/
theorem selector_reset_spec (p : FetchPlaybookRunsParams) (l : FiltersLocalState) :
    ((resetOwner p l).1.owner_user_id = none ∧
        (resetOwner p l).1.page = 0 ∧
        (resetOwner p l).2.profileSelectorToggle = !l.profileSelectorToggle ∧
        (resetOwner p l).2.teamSelectorToggle = l.teamSelectorToggle ∧
        (resetOwner p l).2.playbookSelectorToggle = l.playbookSelectorToggle) ∧
      ((resetTeam p l).1.team_id = none ∧
        (resetTeam p l).1.page = 0 ∧
        (resetTeam p l).2.teamSelectorToggle = !l.teamSelectorToggle ∧
        (resetTeam p l).2.profileSelectorToggle = l.profileSelectorToggle ∧
        (resetTeam p l).2.playbookSelectorToggle = l.playbookSelectorToggle) ∧
      ((resetPlaybook p l).1.playbook_id = none ∧
        (resetPlaybook p l).1.page = 0 ∧
        (resetPlaybook p l).2.playbookSelectorToggle = !l.playbookSelectorToggle ∧
        (resetPlaybook p l).2.profileSelectorToggle = l.profileSelectorToggle ∧
        (resetPlaybook p l).2.teamSelectorToggle = l.teamSelectorToggle) :=
  ⟨⟨rfl, rfl, rfl, rfl, rfl⟩, ⟨rfl, rfl, rfl, rfl, rfl⟩, ⟨rfl, rfl, rfl, rfl, rfl⟩⟩

/-- Claim C7: each filter setter changes only its own target field and the
`page` field; every other field of the fetch parameters is carried over
unchanged by the object spread. -/
theorem filter_setters_frame (p : FetchPlaybookRunsParams)
    (checked : Option Bool) (userType : Option String) (user : Option UserProfile)
    (teamId playbookId : Option String) (term : String) :
    ((setMyRunsOnly checked p).per_page = p.per_page ∧
        (setMyRunsOnly checked p).sort = p.sort ∧
        (setMyRunsOnly checked p).direction = p.direction ∧
        (setMyRunsOnly checked p).team_id = p.team_id ∧
        (setMyRunsOnly checked p).statuses = p.statuses ∧
        (setMyRunsOnly checked p).owner_user_id = p.owner_user_id ∧
        (setMyRunsOnly checked p).search_term = p.search_term ∧
        (setMyRunsOnly checked p).playbook_id = p.playbook_id) ∧
      ((setOwnerId userType user p).per_page = p.per_page ∧
        (setOwnerId userType user p).sort = p.sort ∧
        (setOwnerId userType user p).direction = p.direction ∧
        (setOwnerId userType user p).team_id = p.team_id ∧
        (setOwnerId userType user p).statuses = p.statuses ∧
        (setOwnerId userType user p).participant_or_follower_id = p.participant_or_follower_id ∧
        (setOwnerId userType user p).search_term = p.search_term ∧
        (setOwnerId userType user p).playbook_id = p.playbook_id) ∧
      ((setTeamId teamId p).per_page = p.per_page ∧
        (setTeamId teamId p).sort = p.sort ∧
        (setTeamId teamId p).direction = p.direction ∧
        (setTeamId teamId p).statuses = p.statuses ∧
        (setTeamId teamId p).owner_user_id = p.owner_user_id ∧
        (setTeamId teamId p).participant_or_follower_id = p.participant_or_follower_id ∧
        (setTeamId teamId p).search_term = p.search_term ∧
        (setTeamId teamId p).playbook_id = p.playbook_id) ∧
      ((setPlaybookId playbookId p).per_page = p.per_page ∧
        (setPlaybookId playbookId p).sort = p.sort ∧
        (setPlaybookId playbookId p).direction = p.direction ∧
        (setPlaybookId playbookId p).team_id = p.team_id ∧
        (setPlaybookId playbookId p).statuses = p.statuses ∧
        (setPlaybookId playbookId p).owner_user_id = p.owner_user_id ∧
        (setPlaybookId playbookId p).participant_or_follower_id = p.participant_or_follower_id ∧
        (setPlaybookId playbookId p).search_term = p.search_term) ∧
      ((setFinishedRuns checked p).per_page = p.per_page ∧
        (setFinishedRuns checked p).sort = p.sort ∧
        (setFinishedRuns checked p).direction = p.direction ∧
        (setFinishedRuns checked p).team_id = p.team_id ∧
        (setFinishedRuns checked p).owner_user_id = p.owner_user_id ∧
        (setFinishedRuns checked p).participant_or_follower_id = p.participant_or_follower_id ∧
        (setFinishedRuns checked p).search_term = p.search_term ∧
        (setFinishedRuns checked p).playbook_id = p.playbook_id) ∧
      ((setSearchTerm term p).per_page = p.per_page ∧
        (setSearchTerm term p).sort = p.sort ∧
        (setSearchTerm term p).direction = p.direction ∧
        (setSearchTerm term p).team_id = p.team_id ∧
        (setSearchTerm term p).statuses = p.statuses ∧
        (setSearchTerm term p).owner_user_id = p.owner_user_id ∧
        (setSearchTerm term p).participant_or_follower_id = p.participant_or_follower_id ∧
        (setSearchTerm term p).playbook_id = p.playbook_id) :=
  ⟨⟨rfl, rfl, rfl, rfl, rfl, rfl, rfl, rfl⟩,
    ⟨rfl, rfl, rfl, rfl, rfl, rfl, rfl, rfl⟩,
    ⟨rfl, rfl, rfl, rfl, rfl, rfl, rfl, rfl⟩,
    ⟨rfl, rfl, rfl, rfl, rfl, rfl, rfl, rfl⟩,
    ⟨rfl, rfl, rfl, rfl, rfl, rfl, rfl, rfl⟩,
    ⟨rfl, rfl, rfl, rfl, rfl, rfl, rfl, rfl⟩⟩

/-- Claim C9: the auto-follow checkbox on the detail page is disabled
whenever the playbook is archived (`delete_at` not 0), so this control
cannot trigger the follow/unfollow client calls for an archived playbook. -/
theorem auto_follow_disabled_when_archived (playbook : PlaybookWithChecklist)
    (h : playbook.delete_at ≠ 0) :
    autoFollowCheckboxDisabled playbook = true := by
  simp [autoFollowCheckboxDisabled, archived, h]

/-- Witness for `auto_follow_disabled_when_archived` at a concrete archived
playbook. -/
theorem auto_follow_disabled_when_archived_witness :
    (⟨"pb1", "Title", true, 5, "team1", []⟩ : PlaybookWithChecklist).delete_at ≠ 0 ∧
      autoFollowCheckboxDisabled ⟨"pb1", "Title", true, 5, "team1", []⟩ = true :=
  ⟨by decide, auto_follow_disabled_when_archived _ (by decide)⟩

/-- Claim C1 as stated is false: it asserts both that the not-found redirect
renders exactly when the fetch throws or returns no playbook, and that on
such an error the follow flag is reset to false.  At the concrete outcome
where both client calls resolve but the playbook is absent and the follower
flag is true, the redirect renders yet the follow flag is true, not
false. -/
theorem redirect_claim_counterexample :
    ¬ ∀ (playbookId : String) (outcome : FetchOutcome), playbookId ≠ "" →
      ((rendersNotFoundRedirect (fetchData playbookId outcome initialPageState) = true ↔
          outcomeIndicatesMissing outcome = true) ∧
        (outcomeIndicatesMissing outcome = true →
          (fetchData playbookId outcome initialPageState).isFollowed = false)) := by
  intro h
  have hfol := (h "pb1" (Except.ok (none, true)) (by decide)).2 (by rfl)
  simp [fetchData, initialPageState] at hfol

/-- Claim C1, amended: after the mount fetch completes for a non-empty route
id, the page renders the not-found redirect if and only if the fetch throws
or resolves with no playbook; the follow flag is reset to false when the
fetch throws, while a resolved fetch (even one with no playbook) sets the
follow flag to the fetched follower status. -/
theorem redirect_iff_fetch_missing (playbookId : String) (outcome : FetchOutcome)
    (hpid : playbookId ≠ "") :
    (rendersNotFoundRedirect (fetchData playbookId outcome initialPageState) = true ↔
        outcomeIndicatesMissing outcome = true) ∧
      (∀ e, outcome = Except.error e →
        (fetchData playbookId outcome initialPageState).isFollowed = false) ∧
      (∀ pb follower, outcome = Except.ok (pb, follower) →
        (fetchData playbookId outcome initialPageState).isFollowed = follower) := by
  cases outcome with
  | error e =>
      refine ⟨?_, ?_, ?_⟩
      · simp [fetchData, hpid, initialPageState, rendersNotFoundRedirect,
          outcomeIndicatesMissing]
      · intro e' he
        simp [fetchData, hpid, initialPageState]
      · intro pb follower hok
        exact absurd hok (by simp)
  | ok v =>
      obtain ⟨pb, follower⟩ := v
      refine ⟨?_, ?_, ?_⟩
      · cases pb with
        | none =>
            simp [fetchData, hpid, rendersNotFoundRedirect, outcomeIndicatesMissing]
        | some playbook =>
            simp [fetchData, hpid, rendersNotFoundRedirect, outcomeIndicatesMissing]
      · intro e he
        exact absurd he (by simp)
      · intro pb' follower' hok
        have hpb : pb' = pb ∧ follower' = follower := by
          have := hok
          simp at this
          exact ⟨this.1.symm, this.2.symm⟩
        simp [fetchData, hpid, hpb.2]

/-- Witness for `redirect_iff_fetch_missing` at a thrown fetch: the redirect
renders and the follow flag is false. -/
theorem redirect_iff_fetch_missing_witness :
    rendersNotFoundRedirect (fetchData "pb1" (Except.error ()) initialPageState) = true ∧
      (fetchData "pb1" (Except.error ()) initialPageState).isFollowed = false :=
  ⟨(redirect_iff_fetch_missing "pb1" (Except.error ()) (by decide)).1.mpr (by rfl),
    (redirect_iff_fetch_missing "pb1" (Except.error ()) (by decide)).2.1 () rfl⟩

/-- Claim C10: the "Archive playbook" menu item is rendered exactly when the
playbook is not already archived (`delete_at = 0`), so this page can never
issue the archive client call for an already archived playbook. -/
theorem archive_menu_item_rendered_iff (playbook : PlaybookWithChecklist) :
    archiveMenuItemRendered playbook = true ↔ playbook.delete_at = 0 := by
  simp [archiveMenuItemRendered, archived]

/-- A rapid nonempty event sequence produces exactly one debounced
invocation: auxiliary induction over the event list. -/
theorem debounceInvocationCount_rapid (delay : Nat) (ts : List Nat)
    (hne : ts ≠ []) (hrapid : rapidSequence delay ts = true) :
    debounceInvocationCount delay ts = 1 := by
  induction ts with
  | nil => exact absurd rfl hne
  | cons t rest ih =>
      cases rest with
      | nil => rfl
      | cons t2 rest2 =>
          have hcons := ih (by simp)
          rw [rapidSequence] at hrapid
          simp only [Bool.and_eq_true, decide_eq_true_eq] at hrapid
          rw [debounceInvocationCount, hcons hrapid.2, if_neg (by omega)]

/-- Claim C8: the search input's callback runs through a debounce with the
300-millisecond `searchDebounceDelayMilliseconds` delay, so a nonempty burst
of input events whose consecutive gaps are all below the delay yields
exactly one invocation of the search-term setter. -/
theorem search_debounce_coalesces (eventTimes : List Nat)
    (hne : eventTimes ≠ [])
    (hrapid : rapidSequence searchDebounceDelayMilliseconds eventTimes = true) :
    onSearchInvocationCount eventTimes = 1 ∧
      searchDebounceDelayMilliseconds = 300 :=
  ⟨debounceInvocationCount_rapid _ _ hne hrapid, rfl⟩

/-- Witness for `search_debounce_coalesces`: three events at 0, 100 and 250
milliseconds are coalesced into one search invocation. -/
theorem search_debounce_coalesces_witness :
    ([0, 100, 250] : List Nat) ≠ [] ∧
      rapidSequence searchDebounceDelayMilliseconds [0, 100, 250] = true ∧
      onSearchInvocationCount [0, 100, 250] = 1 ∧
      searchDebounceDelayMilliseconds = 300 :=
  ⟨by decide, by decide,
    (search_debounce_coalesces [0, 100, 250] (by decide) (by decide)).1,
    (search_debounce_coalesces [0, 100, 250] (by decide) (by decide)).2⟩

end PlaybooksSpec
